import Mathlib

/-!
Shallow embedding of the KappaLibrary memory model and processor managers
(`src/data_model/src/memory_manager.rs`, `src/data_model/src/connectors.rs`,
`src/processor_modes/src/lib.rs`, `src/processor_engine/src/stream_processor.rs`).

Rust's mutable state is made explicit: each operation takes the variable and the
global memory-manager environment and returns the outcome together with the new
variable and environment.  A Rust `panic!` (from `.unwrap()` on `None`/`Err`)
is modelled by the `Outcome.panicked` constructor.  The `DataTrait::serialize`
implementation derived by the `memory_var_macro` crate is not part of the
sources; every operation that stores a serialized clone into the registry is
therefore parameterized by an abstract serialization function `ser`.
-/

namespace Kappa

/-- `StreamErrCode` from `src/data_model/src/streaming_data.rs`. -/
inductive StreamErrCode where
  | Ok
  | GenericError
  | AlreadyDefined
  | InvalidStateTransition
  | InvalidParameter
  | InvalidInput
  | InvalidOutput
  | InvalidStatics
  | InvalidProcessorBlock
  | InvalidOperation
  | SendDataError
  | ReceiveDataError
  | UnsetStatics
  | OutOfRange
  | WrongType
  | PathError
  | FileNotFound
  | CreateError
  | ReadError
  | WriteError
  | TaskError
  deriving DecidableEq, Repr

/-- Outcome of a Rust call: normal return, error return, or a `panic!`
    (reached through `.unwrap()` on `None` or on an `Err`). -/
inductive Outcome where
  | ok : Outcome
  | error : StreamErrCode → Outcome
  | panicked : Outcome
  deriving DecidableEq, Repr

/-- Association-list model of `HashMap<&'static str, Box<dyn DataTrait>>`.
    The only observation `MemoryMode` makes of a boxed variable is
    `serialize()`, so the stored value is its serialized form. -/
def MapStr := List (String × String)

def containsKey (m : List (String × String)) (k : String) : Bool :=
  m.any (fun kv => kv.1 == k)

/-- `HashMap::insert`: overwrite if present, append otherwise. -/
def mapInsert (m : List (String × String)) (k v : String) :
    List (String × String) :=
  if containsKey m k then
    m.map (fun kv => if kv.1 == k then (k, v) else kv)
  else
    m ++ [(k, v)]

/-- `MemoryMode` (`memory_manager.rs` lines 218-222): three name-to-variable
    maps, one per variable kind. -/
structure MemoryMode where
  mappedState : List (String × String)
  mappedStatics : List (String × String)
  mappedParameters : List (String × String)
  deriving DecidableEq, Repr

namespace MemoryMode

def new : MemoryMode := ⟨[], [], []⟩

def registerState (m : MemoryMode) (k v : String) :
    Except StreamErrCode MemoryMode :=
  if containsKey m.mappedState k then .error .AlreadyDefined
  else .ok { m with mappedState := mapInsert m.mappedState k v }

def registerStatics (m : MemoryMode) (k v : String) :
    Except StreamErrCode MemoryMode :=
  if containsKey m.mappedStatics k then .error .AlreadyDefined
  else .ok { m with mappedStatics := mapInsert m.mappedStatics k v }

def registerParameters (m : MemoryMode) (k v : String) :
    Except StreamErrCode MemoryMode :=
  if containsKey m.mappedParameters k then .error .AlreadyDefined
  else .ok { m with mappedParameters := mapInsert m.mappedParameters k v }

def updateState (m : MemoryMode) (k v : String) : MemoryMode :=
  { m with mappedState := mapInsert m.mappedState k v }

def updateStatics (m : MemoryMode) (k v : String) : MemoryMode :=
  { m with mappedStatics := mapInsert m.mappedStatics k v }

def updateParameters (m : MemoryMode) (k v : String) : MemoryMode :=
  { m with mappedParameters := mapInsert m.mappedParameters k v }

/-- `MemoryMode::serialize_all` (`memory_manager.rs` lines 262-283),
    transcribed push by push; `\x7b`/`\x7d` are the literal curly braces. -/
def serializeAll (m : MemoryMode) : String :=
  "\x7b\"memory_mapped\":"
    ++ "\x7b\"state\": \x7b"
    ++ String.join (m.mappedState.map (fun kv => kv.2))
    ++ "\x7d"
    ++ ",\x7b\"statics\": \x7b"
    ++ String.join (m.mappedStatics.map (fun kv => kv.2))
    ++ "\x7d"
    ++ ",\x7b\"parameters\": \x7b"
    ++ String.join (m.mappedParameters.map (fun kv => kv.2))
    ++ "\x7d\x7d"

end MemoryMode

/-- `MemoryManager` (`memory_manager.rs` lines 286-320): modes indexed by
    `usize`, plus the current mode index. -/
structure MemoryManager where
  memoryModes : List (Nat × MemoryMode)
  currentModeIndex : Nat
  deriving DecidableEq, Repr

namespace MemoryManager

def new : MemoryManager := ⟨[], 0⟩

def lookupMode (ms : List (Nat × MemoryMode)) (i : Nat) : Option MemoryMode :=
  (ms.find? (fun kv => kv.1 == i)).map (fun kv => kv.2)

def modeInsert (ms : List (Nat × MemoryMode)) (i : Nat) (mo : MemoryMode) :
    List (Nat × MemoryMode) :=
  if ms.any (fun kv => kv.1 == i) then
    ms.map (fun kv => if kv.1 == i then (i, mo) else kv)
  else
    ms ++ [(i, mo)]

def addMode (mm : MemoryManager) (index : Nat) : MemoryManager :=
  { mm with memoryModes := modeInsert mm.memoryModes index MemoryMode.new }

def setMode (mm : MemoryManager) (index : Nat) : MemoryManager :=
  { mm with currentModeIndex := index }

def getMemoryCurrentMode (mm : MemoryManager) : Option MemoryMode :=
  lookupMode mm.memoryModes mm.currentModeIndex

/-- Write back a new content for the current mode (the Rust code mutates the
    `&mut MemoryMode` returned by `get_memory_current_mode`). -/
def putCurrentMode (mm : MemoryManager) (mo : MemoryMode) : MemoryManager :=
  { mm with memoryModes := modeInsert mm.memoryModes mm.currentModeIndex mo }

end MemoryManager

/-- Environment for `MemoryManager::get_memory_manager`: the process-wide
    singleton plus whether its mutex is poisoned (the only case in which
    `get_memory_manager` returns `Err(GenericError)`). -/
structure MMEnv where
  poisoned : Bool
  mgr : MemoryManager
  deriving DecidableEq, Repr

/-- `MemoryManager::get_memory_manager` (`memory_manager.rs` lines 298-304). -/
def MMEnv.getMemoryManager (env : MMEnv) :
    Except StreamErrCode MemoryManager :=
  if env.poisoned then .error .GenericError else .ok env.mgr

/-- Replace the manager inside the environment after a mutation through the
    guard returned by `get_memory_manager`. -/
def MMEnv.putMgr (env : MMEnv) (mgr : MemoryManager) : MMEnv :=
  { env with mgr := mgr }

/-- `Statics<T>` (`memory_manager.rs` lines 27-34): write-once variable. -/
structure Statics (T : Type) where
  name : String
  value : T
  limits : Option (T × T)
  settable : Bool
  deriving DecidableEq, Repr

namespace Statics

variable {T : Type}

/-- `Statics::new` (`memory_manager.rs` lines 39-55).  The registration result
    is discarded (`let _ = ...`), but `.unwrap()` on the `Option` returned by
    `get_memory_current_mode` panics when no mode is registered. -/
def new (ser : Statics T → String) (name : String) (value : T)
    (limits : Option (T × T)) (env : MMEnv) : Outcome × Statics T × MMEnv :=
  let res : Statics T := ⟨name, value, limits, true⟩
  match env.getMemoryManager with
  | .ok mgr =>
    match mgr.getMemoryCurrentMode with
    | none => (.panicked, res, env)
    | some mode =>
      match mode.registerStatics name (ser res) with
      | .ok mode1 => (.ok, res, env.putMgr (mgr.putCurrentMode mode1))
      | .error _ => (.ok, res, env)
  | .error _ => (.ok, res, env)

/-- `Statics::set_value` (`memory_manager.rs` lines 56-74).  Note the order in
    the source: `self.value = value` happens before the memory manager is
    looked up, and `self.settable = false` only after a successful update. -/
def setValue (ser : Statics T → String) (s : Statics T) (env : MMEnv)
    (value : T) : Outcome × Statics T × MMEnv :=
  if s.settable then
    let s1 : Statics T := { s with value := value }
    match env.getMemoryManager with
    | .ok mgr =>
      match mgr.getMemoryCurrentMode with
      | none => (.panicked, s1, env)
      | some mode =>
        (.ok, { s1 with settable := false },
          env.putMgr (mgr.putCurrentMode (mode.updateStatics s1.name (ser s1))))
    | .error e => (.error e, s1, env)
  else
    (.error .InvalidOperation, s, env)

/-- `Statics::get_value` (`memory_manager.rs` lines 75-77). -/
def getValue (s : Statics T) : T := s.value

/-- `StaticsTrait::is_settable` (`memory_manager.rs` lines 83-85). -/
def isSettable (s : Statics T) : Bool := s.settable

/-- A sequence of further `set_value` calls, each with its own environment and
    value; returns the outcomes in order and the final variable. -/
def setTrace (ser : Statics T → String) :
    Statics T → List (MMEnv × T) → List Outcome × Statics T
  | s, [] => ([], s)
  | s, (env, v) :: rest =>
    let r := setValue ser s env v
    let rec1 := setTrace ser r.2.1 rest
    (r.1 :: rec1.1, rec1.2)

end Statics

/-- A listener channel endpoint: its delivered items and whether the
    receiving side is still alive (a `SyncSender::send` on a dead channel
    fails and delivers nothing). -/
structure Sender (T : Type) where
  buf : List T
  alive : Bool
  deriving DecidableEq, Repr

/-- `State<T>` (`memory_manager.rs` lines 88-94), named `StateVar` here. -/
structure StateVar (T : Type) where
  name : String
  value : T
  senders : List (Sender T)
  deriving DecidableEq, Repr

namespace StateVar

variable {T : Type}

/-- `State::new` (`memory_manager.rs` lines 98-113).  Unlike `Statics::new`,
    the registration result is `.unwrap()`ed, so `AlreadyDefined` panics. -/
def new (ser : StateVar T → String) (name : String) (value : T)
    (env : MMEnv) : Outcome × StateVar T × MMEnv :=
  let res : StateVar T := ⟨name, value, []⟩
  match env.getMemoryManager with
  | .ok mgr =>
    match mgr.getMemoryCurrentMode with
    | none => (.panicked, res, env)
    | some mode =>
      match mode.registerState name (ser res) with
      | .ok mode1 => (.ok, res, env.putMgr (mgr.putCurrentMode mode1))
      | .error _ => (.panicked, res, env)
  | .error _ => (.ok, res, env)

/-- `State::set_value` (`memory_manager.rs` lines 114-127): updates the value
    and the registered snapshot; it does not touch `senders`. -/
def setValue (ser : StateVar T → String) (st : StateVar T) (env : MMEnv)
    (value : T) : Outcome × StateVar T × MMEnv :=
  let st1 : StateVar T := { st with value := value }
  match env.getMemoryManager with
  | .ok mgr =>
    match mgr.getMemoryCurrentMode with
    | none => (.panicked, st1, env)
    | some mode =>
      (.ok, st1,
        env.putMgr (mgr.putCurrentMode (mode.updateState st1.name (ser st1))))
  | .error e => (.error e, st1, env)

/-- `State::get_value` (`memory_manager.rs` lines 128-131). -/
def getValue (st : StateVar T) : T := st.value

/-- `State::connect` (`memory_manager.rs` lines 132-134). -/
def connect (st : StateVar T) (s : Sender T) : StateVar T :=
  { st with senders := st.senders ++ [s] }

/-- `State::send` (`memory_manager.rs` lines 135-139): best-effort broadcast
    of the current value, failures ignored (`let _ = s.send(...)`). -/
def send (st : StateVar T) : StateVar T :=
  { st with
    senders := st.senders.map (fun s =>
      if s.alive then { s with buf := s.buf ++ [st.value] } else s) }

end StateVar

/-- `Parameter<T>` (`memory_manager.rs` lines 152-159). -/
structure Parameter (T : Type) where
  name : String
  value : T
  default : T
  limits : Option (T × T)
  deriving DecidableEq, Repr

namespace Parameter

variable {T : Type} [LinearOrder T]

/-- `Parameter::new` (`memory_manager.rs` lines 162-179): the initial value is
    stored without any limit check; the registration result is `.unwrap()`ed. -/
def new (ser : Parameter T → String) (name : String) (value : T)
    (limits : Option (T × T)) (env : MMEnv) : Outcome × Parameter T × MMEnv :=
  let res : Parameter T := ⟨name, value, value, limits⟩
  match env.getMemoryManager with
  | .ok mgr =>
    match mgr.getMemoryCurrentMode with
    | none => (.panicked, res, env)
    | some mode =>
      match mode.registerParameters name (ser res) with
      | .ok mode1 => (.ok, res, env.putMgr (mgr.putCurrentMode mode1))
      | .error _ => (.panicked, res, env)
  | .error _ => (.ok, res, env)

/-- `Parameter::get_value` (`memory_manager.rs` lines 181-185). -/
def getValue (p : Parameter T) : T := p.value

/-- The part of `Parameter::set_value` after the limit check
    (`memory_manager.rs` lines 192-203). -/
def setValueCore (ser : Parameter T → String) (p : Parameter T) (env : MMEnv)
    (value : T) : Outcome × Parameter T × MMEnv :=
  let p1 : Parameter T := { p with value := value }
  match env.getMemoryManager with
  | .ok mgr =>
    match mgr.getMemoryCurrentMode with
    | none => (.panicked, p1, env)
    | some mode =>
      (.ok, p1,
        env.putMgr
          (mgr.putCurrentMode (mode.updateParameters p1.name (ser p1))))
  | .error e => (.error e, p1, env)

/-- `Parameter::set_value` (`memory_manager.rs` lines 186-204): the limit
    check comes first and returns `OutOfRange` before anything is written. -/
def setValue (ser : Parameter T → String) (p : Parameter T) (env : MMEnv)
    (value : T) : Outcome × Parameter T × MMEnv :=
  match p.limits with
  | some (lo, hi) =>
    if value < lo ∨ value > hi then
      (.error .OutOfRange, p, env)
    else
      setValueCore ser p env value
  | none => setValueCore ser p env value

end Parameter

/-- `Output<T>` (`src/data_model/src/connectors.rs` lines 52-56): a fan-out
    set of senders, in the order `connect` attached them. -/
structure Output (T : Type) where
  name : String
  senders : List (Sender T)
  deriving DecidableEq, Repr

namespace Output

variable {T : Type}

/-- `Output::new` (`connectors.rs` lines 59-64). -/
def new (name : String) : Output T := ⟨name, []⟩

/-- `Output::connect` (`connectors.rs` lines 65-67). -/
def connect (o : Output T) (s : Sender T) : Output T :=
  { o with senders := o.senders ++ [s] }

/-- The loop of `Output::send` (`connectors.rs` lines 69-75): clone the data
    into each sender in order; on the first failure stop and return
    `SendDataError`, leaving the remaining senders untouched. -/
def sendLoop : List (Sender T) → T → List (Sender T) × Except StreamErrCode Unit
  | [], _ => ([], .ok ())
  | s :: rest, data =>
    if s.alive then
      let r := sendLoop rest data
      ({ s with buf := s.buf ++ [data] } :: r.1, r.2)
    else
      (s :: rest, .error .SendDataError)

/-- `Output::send` (`connectors.rs` lines 68-77). -/
def send (o : Output T) (data : T) : Output T × Except StreamErrCode Unit :=
  let r := sendLoop o.senders data
  ({ o with senders := r.1 }, r.2)

end Output

/-- `StreamingState` from `src/data_model/src/streaming_data.rs`. -/
inductive StreamingState where
  | Null
  | Initial
  | Running
  | Stopped
  deriving DecidableEq, Repr

/-- The entry of the default `StreamProcessor::run`
    (`src/processor_engine/src/stream_processor.rs` lines 61-66): refuse with
    `InvalidStateTransition` when the current state is `Stopped`
    (`check_state(StreamingState::Stopped)` compares the states for equality),
    otherwise set the state to `Running` and enter the processing loop. -/
def runEnter (st : StreamingState) : Except StreamErrCode StreamingState :=
  if st = .Stopped then .error .InvalidStateTransition
  else .ok .Running

/-- The guarded part of the default `StreamProcessor::init`
    (`stream_processor.rs` lines 51-60). -/
def initEnter (st : StreamingState) (initDone : Bool) :
    Except StreamErrCode StreamingState :=
  if st = .Running then .error .InvalidStateTransition
  else if !initDone then .error .InvalidStatics
  else .ok .Initial

/-- `ProcessorManager` (`src/processor_modes/src/lib.rs` lines 123-127).  The
    modes map is kept as the list of registered indices (`switch_mode` only
    consults `contains_key`; the chains inside a mode and the spawned threads
    do not affect the indices). -/
structure ProcessorManager where
  modes : List Nat
  currentModeIndex : Nat
  currModeHandle : Bool
  deriving DecidableEq, Repr

namespace ProcessorManager

/-- `ProcessorManager::switch_mode` (`processor_modes/src/lib.rs` lines
    141-165).  The source calls `set_mode(self.current_mode_index)` *before*
    assigning `self.current_mode_index = index`, so the memory manager is
    pointed at the old index. -/
def switchMode (pm : ProcessorManager) (mm : MemoryManager) (index : Nat) :
    Except String (ProcessorManager × MemoryManager) :=
  if pm.currentModeIndex == index then
    .ok (pm, mm)
  else if pm.modes.contains index then
    let mm1 := mm.setMode pm.currentModeIndex
    .ok ({ pm with currentModeIndex := index, currModeHandle := true }, mm1)
  else
    .error ("Mode with index " ++ toString index ++ " does not exist.")

end ProcessorManager

/-! Concrete fixtures used by witnesses and counterexamples. -/

/-- Abstract serialization instantiated trivially for `Statics Int`. -/
def serS : Statics Int → String := fun _ => ""

/-- Abstract serialization instantiated trivially for `StateVar Int`. -/
def serSt : StateVar Int → String := fun _ => ""

/-- Abstract serialization instantiated trivially for `Parameter Int`. -/
def serP : Parameter Int → String := fun _ => ""

/-- A healthy environment: manager mutex not poisoned and mode `0` registered
    (the situation after `add_mode(0)`). -/
def goodEnv : MMEnv := ⟨false, ⟨[(0, MemoryMode.new)], 0⟩⟩

/-- The environment before any `add_mode` call: the lazily created manager
    exists (its mutex is fine) but `memory_modes` is empty, so
    `get_memory_current_mode` returns `None`. -/
def noModeEnv : MMEnv := ⟨false, MemoryManager.new⟩

/-- An environment whose manager mutex is poisoned: `get_memory_manager`
    returns `Err(GenericError)` — the only way it fails. -/
def poisonedEnv : MMEnv := ⟨true, ⟨[(0, MemoryMode.new)], 0⟩⟩

/-- Scan a character list tracking JSON string literals (with backslash
    escapes) and the curly-brace depth outside them; `none` when a closing
    brace has no matching opening brace or a string literal is unterminated. -/
def curlyScan : List Char → Bool → Nat → Option Nat
  | [], inStr, d => if inStr then none else some d
  | '\\' :: _ :: cs, true, d => curlyScan cs true d
  | ['\\'], true, _ => none
  | c :: cs, true, d =>
    if c = '\"' then curlyScan cs false d else curlyScan cs true d
  | c :: cs, false, d =>
    if c = '\"' then curlyScan cs true d
    else if c = '\x7b' then curlyScan cs false (d + 1)
    else if c = '\x7d' then
      (match d with
       | 0 => none
       | d1 + 1 => curlyScan cs false d1)
    else curlyScan cs false d

/-- A string has balanced curly braces outside its string literals.  Any
    well-formed JSON object text satisfies this. -/
def curlyBalanced (s : String) : Bool :=
  curlyScan s.data false 0 == some 0

end Kappa

namespace Kappa

/-! Helper lemmas. -/

theorem statics_frozen_set {T : Type} (ser : Statics T → String)
    (s : Statics T) (env : MMEnv) (v : T) (hs : s.settable = false) :
    Statics.setValue ser s env v = (.error .InvalidOperation, s, env) := by
  simp [Statics.setValue, hs]

theorem statics_frozen_trace {T : Type} (ser : Statics T → String)
    (s : Statics T) (hs : s.settable = false) (calls : List (MMEnv × T)) :
    Statics.setTrace ser s calls
      = (calls.map (fun _ => Outcome.error .InvalidOperation), s) := by
  induction calls with
  | nil => simp [Statics.setTrace]
  | cons c rest ih =>
    obtain ⟨env, v⟩ := c
    simp [Statics.setTrace, statics_frozen_set ser s env v hs, ih]

/-- C1: For every `Statics<T>` variable, after the first successful
`set_value` call, `is_settable` is false and every subsequent `set_value`
call returns `InvalidOperation` while the stored value (as returned by
`get_value`) stays equal to the value written by that first successful call,
for the lifetime of the variable. -/
theorem statics_write_once {T : Type} (ser : Statics T → String)
    (s s' : Statics T) (env env' : MMEnv) (v : T)
    (h : Statics.setValue ser s env v = (.ok, s', env'))
    (calls : List (MMEnv × T)) :
    s'.isSettable = false ∧ s'.getValue = v ∧
    (Statics.setTrace ser s' calls).1
      = calls.map (fun _ => Outcome.error .InvalidOperation) ∧
    (Statics.setTrace ser s' calls).2 = s' := by
  have hs' : s' = { s with value := v, settable := false } := by
    cases hs : s.settable with
    | false => simp [Statics.setValue, hs] at h
    | true =>
      cases hp : env.poisoned with
      | true => simp [Statics.setValue, MMEnv.getMemoryManager, hs, hp] at h
      | false =>
        cases hcm : env.mgr.getMemoryCurrentMode with
        | none =>
          simp [Statics.setValue, MMEnv.getMemoryManager, hs, hp, hcm] at h
        | some mode =>
          simp [Statics.setValue, MMEnv.getMemoryManager, hs, hp, hcm] at h
          exact h.1.symm
  subst hs'
  refine ⟨rfl, rfl, ?_, ?_⟩
  · rw [statics_frozen_trace ser _ rfl calls]
  · rw [statics_frozen_trace ser _ rfl calls]

/-- Witness for C1 at a concrete write-once variable. -/
theorem statics_write_once_witness :
    (⟨"s", 42, none, false⟩ : Statics Int).isSettable = false ∧
    (⟨"s", 42, none, false⟩ : Statics Int).getValue = 42 ∧
    (Statics.setTrace serS ⟨"s", 42, none, false⟩ [(goodEnv, 7)]).1
      = [Outcome.error .InvalidOperation] ∧
    (Statics.setTrace serS ⟨"s", 42, none, false⟩ [(goodEnv, 7)]).2
      = ⟨"s", 42, none, false⟩ := by
  have h := statics_write_once serS ⟨"s", 0, none, true⟩ ⟨"s", 42, none, false⟩
      goodEnv ⟨false, ⟨[(0, ⟨[], [("s", "")], []⟩)], 0⟩⟩ 42 (by decide)
      [(goodEnv, 7)]
  simpa using h

/-- C10: For every still-settable `Statics<T>`, if `set_value(v)` returns an
error because the Memory Manager is unavailable, the call is not atomic: the
stored value has already been updated to `v` (`get_value` returns `v`) while
`settable` remains true, so the failed call does not consume the single
permitted write and a later `set_value` can still succeed. -/
theorem statics_failed_set_not_atomic {T : Type} (ser : Statics T → String)
    (s : Statics T) (env : MMEnv) (v : T) (env2 : MMEnv) (w : T)
    (hset : s.settable = true) (hpois : env.poisoned = true)
    (hp2 : env2.poisoned = false)
    (hm2 : env2.mgr.getMemoryCurrentMode.isSome = true) :
    Statics.setValue ser s env v
      = (.error .GenericError, { s with value := v }, env) ∧
    ({ s with value := v } : Statics T).getValue = v ∧
    ({ s with value := v } : Statics T).isSettable = true ∧
    (Statics.setValue ser { s with value := v } env2 w).1 = .ok := by
  obtain ⟨mode, hmode⟩ := Option.isSome_iff_exists.mp hm2
  refine ⟨?_, rfl, by simp [Statics.isSettable, hset], ?_⟩
  · simp [Statics.setValue, MMEnv.getMemoryManager, hset, hpois]
  · simp [Statics.setValue, MMEnv.getMemoryManager, hset, hp2, hmode]

/-- Witness for C10: a poisoned manager mutex, then a healthy retry. -/
theorem statics_failed_set_not_atomic_witness :
    Statics.setValue serS ⟨"s", 0, none, true⟩ poisonedEnv 5
      = (.error .GenericError, ⟨"s", 5, none, true⟩, poisonedEnv) ∧
    (⟨"s", 5, none, true⟩ : Statics Int).getValue = 5 ∧
    (⟨"s", 5, none, true⟩ : Statics Int).isSettable = true ∧
    (Statics.setValue serS ⟨"s", 5, none, true⟩ goodEnv 9).1 = .ok := by
  have h := statics_failed_set_not_atomic serS ⟨"s", 0, none, true⟩
      poisonedEnv 5 goodEnv 9 rfl rfl rfl (by decide)
  simpa using h

theorem parameter_setValueCore_ok {T : Type} [LinearOrder T]
    (ser : Parameter T → String) (p : Parameter T) (env : MMEnv) (v : T)
    (hp : env.poisoned = false)
    (hm : env.mgr.getMemoryCurrentMode.isSome = true) :
    (Parameter.setValueCore ser p env v).1 = .ok ∧
    (Parameter.setValueCore ser p env v).2.1 = { p with value := v } := by
  obtain ⟨mode, hmode⟩ := Option.isSome_iff_exists.mp hm
  simp [Parameter.setValueCore, MMEnv.getMemoryManager, hp, hmode]

/-- C5: For every `Parameter<T>` with limits `[lo,hi]`, calling `set_value(v)`
with `v < lo` or `v > hi` returns `OutOfRange` and leaves the stored value
unchanged (a subsequent `get_value` returns the same value as before the
rejected call); `set_value(v)` with `lo <= v <= hi` returns `Ok` (the Memory
Manager being reachable) and a subsequent `get_value` returns `v`. -/
theorem parameter_limits_enforced {T : Type} [LinearOrder T]
    (ser : Parameter T → String) (p : Parameter T) (env : MMEnv)
    (lo hi v w : T)
    (hlim : p.limits = some (lo, hi))
    (hout : v < lo ∨ v > hi)
    (hinlo : lo ≤ w) (hinhi : w ≤ hi)
    (hp : env.poisoned = false)
    (hm : env.mgr.getMemoryCurrentMode.isSome = true) :
    Parameter.setValue ser p env v = (.error .OutOfRange, p, env) ∧
    (Parameter.setValue ser p env v).2.1.getValue = p.getValue ∧
    (Parameter.setValue ser p env w).1 = .ok ∧
    (Parameter.setValue ser p env w).2.1.getValue = w := by
  have hrej : Parameter.setValue ser p env v = (.error .OutOfRange, p, env) := by
    simp [Parameter.setValue, hlim, hout]
  have hnot : ¬ (w < lo ∨ w > hi) := by
    push_neg
    exact ⟨hinlo, hinhi⟩
  have hcore := parameter_setValueCore_ok ser p env w hp hm
  have hacc : Parameter.setValue ser p env w
      = Parameter.setValueCore ser p env w := by
    simp [Parameter.setValue, hlim, hnot]
  refine ⟨hrej, by rw [hrej], ?_, ?_⟩
  · rw [hacc]
    exact hcore.1
  · rw [hacc, Parameter.getValue, hcore.2]

/-- Witness for C5: the spec's literal scenario `Parameter<i32>("p", 10,
Some([10,20]))`, `set_value(25)` rejected, `set_value(15)` accepted. -/
theorem parameter_limits_enforced_witness :
    Parameter.setValue serP ⟨"p", 10, 10, some (10, 20)⟩ goodEnv 25
      = (.error .OutOfRange, ⟨"p", 10, 10, some (10, 20)⟩, goodEnv) ∧
    (Parameter.setValue serP ⟨"p", 10, 10, some (10, 20)⟩ goodEnv 25).2.1.getValue
      = (⟨"p", 10, 10, some (10, 20)⟩ : Parameter Int).getValue ∧
    (Parameter.setValue serP ⟨"p", 10, 10, some (10, 20)⟩ goodEnv 15).1 = .ok ∧
    (Parameter.setValue serP ⟨"p", 10, 10, some (10, 20)⟩ goodEnv 15).2.1.getValue
      = 15 := by
  exact parameter_limits_enforced serP ⟨"p", 10, 10, some (10, 20)⟩ goodEnv
    10 20 25 15 rfl (by norm_num) (by norm_num) (by norm_num) rfl (by decide)

/-- Counterexample to C6: the constructor performs no limit check, so
`Parameter::new("p", 25, Some([10,20]))` succeeds and stores `25`, which lies
outside the limits `[10,20]`. -/
theorem parameter_new_stores_out_of_limits :
    (Parameter.new serP "p" (25 : Int) (some (10, 20)) goodEnv).1 = .ok ∧
    (Parameter.new serP "p" (25 : Int) (some (10, 20)) goodEnv).2.1.getValue
      = 25 ∧
    ¬ ((10 : Int)
          ≤ (Parameter.new serP "p" (25 : Int) (some (10, 20)) goodEnv).2.1.getValue ∧
        (Parameter.new serP "p" (25 : Int) (some (10, 20)) goodEnv).2.1.getValue
          ≤ 20) := by
  refine ⟨rfl, rfl, ?_⟩
  intro hcontra
  have : (25 : Int) ≤ 20 := hcontra.2
  norm_num at this

/-- C6 as amended: `set_value` never stores an out-of-limits value — after any
`set_value` on a `Parameter` with limits `[lo,hi]`, the stored value is either
unchanged or lies within `[lo,hi]` — but the constructor does not validate the
initial value, so a freshly built `Parameter` may hold a value outside the
limits until the first accepted `set_value`. -/
theorem parameter_set_value_respects_limits {T : Type} [LinearOrder T]
    (ser : Parameter T → String) (p : Parameter T) (env : MMEnv) (lo hi v : T)
    (hlim : p.limits = some (lo, hi)) :
    (Parameter.setValue ser p env v).2.1.getValue = p.getValue ∨
    (lo ≤ (Parameter.setValue ser p env v).2.1.getValue ∧
      (Parameter.setValue ser p env v).2.1.getValue ≤ hi) := by
  by_cases hout : v < lo ∨ v > hi
  · left
    simp [Parameter.setValue, hlim, hout]
  · right
    push_neg at hout
    have hval : (Parameter.setValue ser p env v).2.1.value = v := by
      simp only [Parameter.setValue, hlim]
      rw [if_neg (by push_neg; exact hout)]
      simp only [Parameter.setValueCore]
      cases henv : env.getMemoryManager with
      | ok mgr =>
        cases hcm : mgr.getMemoryCurrentMode with
        | none => simp [henv, hcm]
        | some mode => simp [henv, hcm]
      | error e => simp [henv]
    rw [Parameter.getValue, hval]
    exact hout

/-- Witness for the amended C6 at a concrete in-range write. -/
theorem parameter_set_value_respects_limits_witness :
    (Parameter.setValue serP ⟨"p", 25, 25, some (10, 20)⟩ goodEnv 12).2.1.getValue
        = (⟨"p", 25, 25, some (10, 20)⟩ : Parameter Int).getValue ∨
    ((10 : Int)
        ≤ (Parameter.setValue serP ⟨"p", 25, 25, some (10, 20)⟩ goodEnv 12).2.1.getValue ∧
      (Parameter.setValue serP ⟨"p", 25, 25, some (10, 20)⟩ goodEnv 12).2.1.getValue
        ≤ 20) := by
  exact parameter_set_value_respects_limits serP ⟨"p", 25, 25, some (10, 20)⟩
    goodEnv 10 20 12 rfl

/-- Counterexample to C2: with modes `{0,1}`, current processor index `0` and
memory index `0`, `switch_mode(1)` returns `Ok` but leaves the memory
manager's current mode index at `0` (the old index, passed to `set_mode`
before `current_mode_index` is reassigned) while the processor index becomes
`1` — the two indexes do not move together. -/
theorem switch_mode_indexes_diverge :
    ProcessorManager.switchMode ⟨[0, 1], 0, false⟩ ⟨[], 0⟩ 1
      = .ok (⟨[0, 1], 1, true⟩, ⟨[], 0⟩) ∧
    (⟨[], 0⟩ : MemoryManager).currentModeIndex
      ≠ (⟨[0, 1], 1, true⟩ : ProcessorManager).currentModeIndex := by
  exact ⟨rfl, by decide⟩

/-- C2 as amended: after `switch_mode(i)` returns `Ok` with `i` different from
the current index, the processor index equals `i` but the memory-mode index
equals the *previous* processor index: `set_mode` is called with the old
`current_mode_index` before that field is reassigned, so the two indexes end
up decoupled rather than moving together. -/
theorem switch_mode_sets_old_memory_index (pm : ProcessorManager)
    (mm : MemoryManager) (i : Nat)
    (hne : pm.currentModeIndex ≠ i)
    (hmem : pm.modes.contains i = true) :
    ProcessorManager.switchMode pm mm i
      = .ok ({ pm with currentModeIndex := i, currModeHandle := true },
        mm.setMode pm.currentModeIndex) ∧
    ({ pm with currentModeIndex := i, currModeHandle := true } : ProcessorManager).currentModeIndex = i ∧
    (mm.setMode pm.currentModeIndex).currentModeIndex
      = pm.currentModeIndex := by
  refine ⟨?_, rfl, rfl⟩
  simp [ProcessorManager.switchMode, hne, hmem]
  simpa using hmem

/-- Witness for the amended C2 at a concrete mode switch. -/
theorem switch_mode_sets_old_memory_index_witness :
    ProcessorManager.switchMode ⟨[0, 1], 0, false⟩ ⟨[], 0⟩ 1
      = .ok (⟨[0, 1], 1, true⟩, ⟨[], 0⟩) ∧
    (⟨[0, 1], 1, true⟩ : ProcessorManager).currentModeIndex = 1 ∧
    ((⟨[], 0⟩ : MemoryManager).setMode 0).currentModeIndex = 0 := by
  have h := switch_mode_sets_old_memory_index ⟨[0, 1], 0, false⟩ ⟨[], 0⟩ 1
      (by decide) (by decide)
  simpa using h

/-- Counterexample to C4: with the block state `Null`, the default
`StreamProcessor::run` is not refused — the guard only checks for `Stopped`,
so the state goes from `Null` directly to `Running` without `init`. -/
theorem run_from_null_not_refused :
    runEnter .Null = .ok .Running := rfl

/-- C4 as amended: the default `run` refuses (with `InvalidStateTransition`)
exactly when the block state is `Stopped`; from every other state — `Null`
included — `run` proceeds and sets the state to `Running`, so `init` is not
enforced before `run`. -/
theorem run_refused_only_from_stopped :
    (runEnter .Stopped = .error .InvalidStateTransition) ∧
    (runEnter .Null = .ok .Running) ∧
    (runEnter .Initial = .ok .Running) ∧
    (runEnter .Running = .ok .Running) := by
  exact ⟨rfl, rfl, rfl, rfl⟩

/-- Counterexample to C3: a `State<i32>` with one connected listener whose
channel is empty; `set_value(5)` returns `Ok` but the listener's channel is
still empty afterwards — the new value was not broadcast. -/
theorem state_set_value_does_not_broadcast :
    (StateVar.setValue serSt ⟨"s", 0, [⟨[], true⟩]⟩ goodEnv 5).1 = .ok ∧
    (StateVar.setValue serSt ⟨"s", 0, [⟨[], true⟩]⟩ goodEnv 5).2.1.senders.map
        Sender.buf
      = [[]] := by
  exact ⟨rfl, rfl⟩

/-- C3 as amended: `set_value(v)` updates the stored value (and the registered
Memory-Manager snapshot) but sends nothing to the connected listeners; the
broadcast is performed only by the separate `send()` method, which delivers
the current stored value to every connected listener whose channel is still
alive, ignoring failures. -/
theorem state_set_value_then_send {T : Type} (ser : StateVar T → String)
    (st : StateVar T) (env : MMEnv) (v : T)
    (hp : env.poisoned = false)
    (hm : env.mgr.getMemoryCurrentMode.isSome = true) :
    (StateVar.setValue ser st env v).1 = .ok ∧
    (StateVar.setValue ser st env v).2.1.getValue = v ∧
    (StateVar.setValue ser st env v).2.1.senders = st.senders ∧
    ((StateVar.setValue ser st env v).2.1.send).senders
      = st.senders.map (fun s =>
          if s.alive then { s with buf := s.buf ++ [v] } else s) := by
  obtain ⟨mode, hmode⟩ := Option.isSome_iff_exists.mp hm
  have hred : (StateVar.setValue ser st env v).2.1 = { st with value := v } := by
    simp [StateVar.setValue, MMEnv.getMemoryManager, hp, hmode]
  refine ⟨?_, ?_, ?_, ?_⟩
  · simp [StateVar.setValue, MMEnv.getMemoryManager, hp, hmode]
  · rw [StateVar.getValue, hred]
  · rw [hred]
  · rw [hred]
    simp [StateVar.send]

/-- Witness for the amended C3: one alive and one dead listener. -/
theorem state_set_value_then_send_witness :
    (StateVar.setValue serSt ⟨"s", 0, [⟨[], true⟩, ⟨[], false⟩]⟩ goodEnv 5).1
      = .ok ∧
    (StateVar.setValue serSt ⟨"s", 0, [⟨[], true⟩, ⟨[], false⟩]⟩ goodEnv 5).2.1.getValue
      = 5 ∧
    (StateVar.setValue serSt ⟨"s", 0, [⟨[], true⟩, ⟨[], false⟩]⟩ goodEnv 5).2.1.senders
      = [⟨[], true⟩, ⟨[], false⟩] ∧
    ((StateVar.setValue serSt ⟨"s", 0, [⟨[], true⟩, ⟨[], false⟩]⟩ goodEnv 5).2.1.send).senders
      = [⟨[5], true⟩, ⟨[], false⟩] := by
  have h := state_set_value_then_send serSt ⟨"s", 0, [⟨[], true⟩, ⟨[], false⟩]⟩
      goodEnv 5 rfl (by decide)
  simpa using h

theorem sendLoop_all_alive {T : Type} (data : T) (l : List (Sender T))
    (h : ∀ s ∈ l, s.alive = true) :
    Output.sendLoop l data
      = (l.map (fun s => { s with buf := s.buf ++ [data] }), .ok ()) := by
  induction l with
  | nil => rfl
  | cons s rest ih =>
    have hs : s.alive = true := h s (by simp)
    simp [Output.sendLoop, hs, ih (fun x hx => h x (by simp [hx]))]

theorem sendLoop_first_dead {T : Type} (data : T) (pre : List (Sender T))
    (dead : Sender T) (post : List (Sender T))
    (hpre : ∀ s ∈ pre, s.alive = true) (hdead : dead.alive = false) :
    Output.sendLoop (pre ++ dead :: post) data
      = (pre.map (fun s => { s with buf := s.buf ++ [data] }) ++ dead :: post,
        .error .SendDataError) := by
  induction pre with
  | nil => simp [Output.sendLoop, hdead]
  | cons s rest ih =>
    have hs : s.alive = true := hpre s (by simp)
    simp [Output.sendLoop, hs, ih (fun x hx => hpre x (by simp [hx]))]

/-- C7: For every `Output<T>` and every data item, `send(data)` delivers a
clone of `data` to every connected sender in the order the senders were
attached by `connect`; with zero connected senders it returns `Ok` as a
no-op; on the first sender-side failure it stops (senders attached earlier
retain their already-delivered items, senders attached later receive
nothing) and returns `SendDataError`. -/
theorem output_send_fanout {T : Type} (o : Output T) (data : T)
    (pre : List (Sender T)) (dead : Sender T) (post : List (Sender T)) :
    (o.senders = [] → Output.send o data = (o, .ok ())) ∧
    ((∀ s ∈ o.senders, s.alive = true) →
      Output.send o data
        = ({ o with senders := o.senders.map (fun s =>
              { s with buf := s.buf ++ [data] }) }, .ok ())) ∧
    (o.senders = pre ++ dead :: post → (∀ s ∈ pre, s.alive = true) →
      dead.alive = false →
      Output.send o data
        = ({ o with senders := pre.map (fun s =>
              { s with buf := s.buf ++ [data] }) ++ dead :: post },
          .error .SendDataError)) := by
  refine ⟨?_, ?_, ?_⟩
  · intro hnil
    simp [Output.send, hnil, Output.sendLoop]
    rw [← hnil]
  · intro halive
    simp [Output.send, sendLoop_all_alive data o.senders halive]
  · intro hsplit hpre hdead
    simp [Output.send, hsplit, sendLoop_first_dead data pre dead post hpre hdead]

/-- Witness for C7: zero senders, two alive senders, and a dead sender
between two alive ones. -/
theorem output_send_fanout_witness :
    Output.send (⟨"o", []⟩ : Output Int) 1 = (⟨"o", []⟩, .ok ()) ∧
    Output.send (⟨"o", [⟨[], true⟩, ⟨[7], true⟩]⟩ : Output Int) 2
      = (⟨"o", [⟨[2], true⟩, ⟨[7, 2], true⟩]⟩, .ok ()) ∧
    Output.send (⟨"o", [⟨[], true⟩, ⟨[], false⟩, ⟨[], true⟩]⟩ : Output Int) 3
      = (⟨"o", [⟨[3], true⟩, ⟨[], false⟩, ⟨[], true⟩]⟩,
        .error .SendDataError) := by
  have h1 := output_send_fanout (⟨"o", []⟩ : Output Int) 1 [] ⟨[], false⟩ []
  have h2 := output_send_fanout (⟨"o", [⟨[], true⟩, ⟨[7], true⟩]⟩ : Output Int)
      2 [] ⟨[], false⟩ []
  have h3 := output_send_fanout
      (⟨"o", [⟨[], true⟩, ⟨[], false⟩, ⟨[], true⟩]⟩ : Output Int) 3
      [⟨[], true⟩] ⟨[], false⟩ [⟨[], true⟩]
  refine ⟨h1.1 rfl, ?_, ?_⟩
  · have := h2.2.1 (by decide)
    simpa using this
  · have := h3.2.2 rfl (by decide) rfl
    simpa using this

/-- C8 (code bug): `serialize_all` on a mode with no registered variables
produces the literal string
`\x7b"memory_mapped":\x7b"state": \x7b\x7d,\x7b"statics": \x7b\x7d,\x7b"parameters": \x7b\x7d\x7d`,
whose curly braces outside string literals do not balance (seven opening
braces against four closing ones, with stray `,\x7b` before `"statics"` and
`"parameters"`), so the snapshot is not a well-formed JSON object of the
claimed shape. -/
theorem serialize_all_not_well_formed :
    MemoryMode.serializeAll MemoryMode.new
      = "\x7b\"memory_mapped\":\x7b\"state\": \x7b\x7d,\x7b\"statics\": \x7b\x7d,\x7b\"parameters\": \x7b\x7d\x7d" ∧
    curlyBalanced (MemoryMode.serializeAll MemoryMode.new) = false := by
  exact ⟨rfl, by decide⟩

/-- C9 (code bug): before any `add_mode`, the memory manager exists but has
no current mode, so `get_memory_current_mode()` returns `None` and the
`.unwrap()` inside each constructor panics — construction aborts instead of
succeeding silently, for all three variable kinds. -/
theorem constructors_panic_without_mode :
    (Statics.new serS "test_statics" (10 : Int) none noModeEnv).1
      = .panicked ∧
    (StateVar.new serSt "test_state" (10 : Int) noModeEnv).1 = .panicked ∧
    (Parameter.new serP "test_param" (10 : Int) none noModeEnv).1
      = .panicked := by
  exact ⟨rfl, rfl, rfl⟩

end Kappa
